import Mathlib

/-!
Verification of the MediaCom-Avatar-Bot speech-recognition wrapper
(`WebSpeechRecognizer`, app/lib/webSpeechAPI.ts) and the turn coordinator
(`InteractiveAvatar.tsx`), as a shallow embedding: the wrapper's mutable
session flags become an explicit state record, every public operation and
every engine event handler becomes a function returning the new state
together with the list of calls it issues to the underlying engine.
-/

namespace MediaComAvatar

/-- A call issued to the underlying recognition engine
(`recognition.start()`, `recognition.stop()`, `recognition.abort()`,
assignment of `recognition.lang`). -/
inductive EngineCall where
  | start : EngineCall
  | stop : EngineCall
  | abort : EngineCall
  | setLang : String → EngineCall
deriving DecidableEq, Repr

/-- Session state of `WebSpeechRecognizer`: `recognition` is whether the
engine handle is non-null, the three Booleans are the private fields
`isListening`, `isPaused`, `autoRestart`, and `configAutoRestart` is the
stored `config.autoRestart` default read back by `resume()`. -/
structure RecState where
  recognition : Bool
  isListening : Bool
  isPaused : Bool
  autoRestart : Bool
  configAutoRestart : Bool
deriving DecidableEq, Repr, Fintype

/-- The fixed auto-restart delay (milliseconds) passed to `setTimeout`
in the `onend` handler. -/
def restartDelayMs : Nat := 100

namespace WebSpeechRecognizer

/-- `start()`: no-op when the handle is null or already listening;
otherwise clears the paused flag and requests engine start (the request
is wrapped in try/catch, so a failure never escapes). -/
def start (s : RecState) : RecState × List EngineCall :=
  if !s.recognition then (s, [])
  else if s.isListening then (s, [])
  else ({ s with isPaused := false }, [EngineCall.start])

/-- `stop()`: no-op when the handle is null; otherwise sets
`isPaused := true`, `autoRestart := false` and requests engine stop. -/
def stop (s : RecState) : RecState × List EngineCall :=
  if !s.recognition then (s, [])
  else ({ s with isPaused := true, autoRestart := false }, [EngineCall.stop])

/-- `pause()`: no-op when the handle is null; otherwise sets
`isPaused := true` (leaving `autoRestart` untouched) and requests an
engine abort. -/
def pause (s : RecState) : RecState × List EngineCall :=
  if !s.recognition then (s, [])
  else ({ s with isPaused := true }, [EngineCall.abort])

/-- `resume()`: no-op when the handle is null; otherwise clears the
paused flag, restores `autoRestart` from the stored config default, and
unconditionally requests engine start (failure caught and logged). -/
def resume (s : RecState) : RecState × List EngineCall :=
  if !s.recognition then (s, [])
  else ({ s with isPaused := false, autoRestart := s.configAutoRestart },
        [EngineCall.start])

/-- `setLanguage(lang)`: assigns `recognition.lang` only when the handle
is non-null; the session Booleans are untouched. -/
def setLanguage (s : RecState) (lang : String) : RecState × List EngineCall :=
  if s.recognition then (s, [EngineCall.setLang lang]) else (s, [])

/-- `destroy()`: sets `isPaused := true`, `autoRestart := false`,
aborts the engine when a handle exists, and nulls the handle. -/
def destroy (s : RecState) : RecState × List EngineCall :=
  ({ s with isPaused := true, autoRestart := false, recognition := false },
   if s.recognition then [EngineCall.abort] else [])

/-- The engine `onend` handler: sets `isListening := false`, invokes
`onEnd`, and, when `autoRestart && !isPaused`, schedules one restart
timer with the fixed delay. Returns the new state and the delay of the
scheduled timer, if any. -/
def handleEnded (s : RecState) : RecState × Option Nat :=
  ({ s with isListening := false },
   if s.autoRestart && !s.isPaused then some restartDelayMs else none)

/-- The callback of the restart timer scheduled by `onend`: re-checks
`!isPaused && recognition` and only then requests engine start (inside
try/catch, so a double-start failure is swallowed). -/
def restartTimerFire (s : RecState) : RecState × List EngineCall :=
  if !s.isPaused && s.recognition then (s, [EngineCall.start]) else (s, [])

/-- The engine `onerror` handler: returns the error code forwarded to
the caller's `onError` callback, or `none` when the code is one of the
two silently absorbed codes. -/
def handleErrorEvent (error : String) : Option String :=
  if error = "no-speech" then none
  else if error = "aborted" then none
  else some error

/-- Environment seen by `init()`: whether a `window` object exists and
whether `window.SpeechRecognition || window.webkitSpeechRecognition`
yields an engine constructor. -/
structure InitEnv where
  hasWindow : Bool
  hasEngine : Bool
deriving DecidableEq, Repr, Fintype

/-- Result of `init()`: whether an engine handle was created, and the
error string passed to the caller's `onError` callback, if any. -/
structure InitResult where
  recognition : Bool
  errorNotified : Option String
deriving DecidableEq, Repr

/-- `init()`: with no `window` object it logs a warning and returns
(no handle, no error callback); with a window but no engine constructor
it invokes `onError` with a fixed message and returns; otherwise it
creates the handle and installs the event handlers. -/
def init (env : InitEnv) : InitResult :=
  if !env.hasWindow then ⟨false, none⟩
  else if !env.hasEngine then ⟨false, some "Web Speech API not supported"⟩
  else ⟨true, none⟩

end WebSpeechRecognizer

/-- Downstream effect of a coordinator `onResult` delivery: nothing, an
update of the interim-transcript display, or forwarding the transcript
to the reply generator (`callOpenAI`). -/
inductive CoordAction where
  | none : CoordAction
  | setInterim : String → CoordAction
  | forwardToReply : String → CoordAction
deriving DecidableEq, Repr

/-- `handleUserSpeech` in `InteractiveAvatar.tsx`: drops the transcript
when the avatar-speaking flag is set, when the trimmed transcript is
empty, or when a user turn is already in flight; otherwise forwards it
to the reply generator. -/
def handleUserSpeech (avatarSpeaking isProcessing : Bool)
    (transcript : String) : CoordAction :=
  if avatarSpeaking then CoordAction.none
  else if transcript.trim.isEmpty || isProcessing then CoordAction.none
  else CoordAction.forwardToReply transcript

/-- The `onResult` callback installed by `initWebSpeech`: returns
immediately while the avatar-speaking flag is set; otherwise a final
transcript goes to `handleUserSpeech` and an interim one only updates
the interim display. -/
def coordOnResult (avatarSpeaking isProcessing : Bool)
    (transcript : String) (isFinal : Bool) : CoordAction :=
  if avatarSpeaking then CoordAction.none
  else if isFinal then handleUserSpeech avatarSpeaking isProcessing transcript
  else CoordAction.setInterim transcript

/-- Observable outcome of one `speakWithAvatar` call. -/
structure SpeakOutcome where
  pauseCalled : Bool
  speakRequested : Bool
  resumeCalled : Bool
  avatarSpeakingAfter : Bool
deriving DecidableEq, Repr

/-- `speakWithAvatar` in `InteractiveAvatar.tsx`: no-op without an
avatar handle or with empty text; otherwise sets the avatar-speaking
flag, pauses recognition, interrupts, and requests synthesis; its catch
block clears the flag and resumes recognition (fail-open). -/
def speakWithAvatar (avatarSpeaking hasAvatar : Bool) (text : String)
    (speakFails : Bool) : SpeakOutcome :=
  if !hasAvatar || text.isEmpty then ⟨false, false, false, avatarSpeaking⟩
  else if speakFails then ⟨true, true, true, false⟩
  else ⟨true, true, false, true⟩

/-- Observable outcome of one `handleTabChange` call. -/
structure TabOutcome where
  pauseCalled : Bool
  speakRequested : Bool
  resumeCalled : Bool
  avatarSpeakingAfter : Bool
  processingAfter : Bool
deriving DecidableEq, Repr

/-- `handleTabChange` in `InteractiveAvatar.tsx`: returns early while a
turn is in flight; otherwise sets the avatar-speaking flag, pauses
recognition, interrupts, fetches the tab script, and (when an avatar
handle and a non-empty script exist) requests synthesis inside a
try/catch whose catch block only logs — it never calls `resume()` and
never clears the avatar-speaking flag, on success or on failure. -/
def handleTabChange (avatarSpeaking isProcessing hasAvatar scriptNonempty
    _speakFails : Bool) : TabOutcome :=
  if isProcessing then ⟨false, false, false, avatarSpeaking, true⟩
  else ⟨true, hasAvatar && scriptNonempty, false, true, false⟩

/-- The fixed trusted-origin list checked by the `message` handler. -/
def allowedOrigins : List String :=
  ["https://sdkparkforbi.github.io", "http://localhost", "http://127.0.0.1"]

/-- Action taken by the host-page `message` handler. -/
inductive MsgAction where
  | none : MsgAction
  | tabChange : String → MsgAction
deriving DecidableEq, Repr

/-- `origin.startsWith(o)` from the handler's allow-list check: `p` is
a prefix of `s`, computed over the character lists. -/
def strStartsWith (s p : String) : Bool :=
  p.data.isPrefixOf s.data

/-- `handleMessage` in `InteractiveAvatar.tsx`: ignores the message
unless `event.origin` starts with one of the allowed origins; then
processes a tab change only for type `"TAB_CHANGED"` with a truthy
`tabId`. -/
def handleMessage (origin msgType : String) (tabId : Option String) :
    MsgAction :=
  if allowedOrigins.any (fun o => strStartsWith origin o) then
    if msgType = "TAB_CHANGED" then
      match tabId with
      | some t => if t.isEmpty then MsgAction.none else MsgAction.tabChange t
      | none => MsgAction.none
    else MsgAction.none
  else MsgAction.none

/-- Engine-side events delivered to a live session: the natural `onend`
termination, and the firing of a previously scheduled restart timer. -/
inductive REvent where
  | ended : REvent
  | timerFire : REvent
deriving DecidableEq, Repr

/-- One engine-side event step: `ended` runs the `onend` handler (the
timer it may schedule is fired as a separate `timerFire` event);
`timerFire` runs the restart timer's callback. -/
def stepEvent (s : RecState) : REvent → RecState × List EngineCall
  | REvent.ended => ((WebSpeechRecognizer.handleEnded s).1, [])
  | REvent.timerFire => WebSpeechRecognizer.restartTimerFire s

/-- Run a list of engine-side events, accumulating engine calls. -/
def runEvents : RecState → List REvent → RecState × List EngineCall
  | s, [] => (s, [])
  | s, e :: es =>
    let r := stepEvent s e
    let r' := runEvents r.1 es
    (r'.1, r.2 ++ r'.2)

/-- A public operation on the session. -/
inductive PubOp where
  | start : PubOp
  | stop : PubOp
  | pause : PubOp
  | resume : PubOp
  | destroy : PubOp
  | setLanguage : String → PubOp
deriving DecidableEq, Repr

/-- Dispatch a public operation. -/
def applyOp (s : RecState) : PubOp → RecState × List EngineCall
  | PubOp.start => WebSpeechRecognizer.start s
  | PubOp.stop => WebSpeechRecognizer.stop s
  | PubOp.pause => WebSpeechRecognizer.pause s
  | PubOp.resume => WebSpeechRecognizer.resume s
  | PubOp.destroy => WebSpeechRecognizer.destroy s
  | PubOp.setLanguage l => WebSpeechRecognizer.setLanguage s l

/-- An item of a session history: a public operation or an engine event. -/
inductive SessItem where
  | op : PubOp → SessItem
  | ev : REvent → SessItem
deriving DecidableEq, Repr

/-- Dispatch one history item. -/
def stepItem (s : RecState) : SessItem → RecState × List EngineCall
  | SessItem.op o => applyOp s o
  | SessItem.ev e => stepEvent s e

/-- Run a list of history items, accumulating engine calls. -/
def runItems : RecState → List SessItem → RecState × List EngineCall
  | s, [] => (s, [])
  | s, i :: is =>
    let r := stepItem s i
    let r' := runItems r.1 is
    (r'.1, r.2 ++ r'.2)

/-- Claim C1: every transcript event, interim or final, delivered while
the coordinator's avatar-speaking flag is set is discarded — the
`onResult` callback takes no action, and `handleUserSpeech` likewise
drops a transcript arriving with the flag set, so nothing reaches the
reply generator. -/
theorem avatarTurn_discards_all_transcripts (transcript : String)
    (isFinal isProcessing : Bool) :
    coordOnResult true isProcessing transcript isFinal = CoordAction.none ∧
    handleUserSpeech true isProcessing transcript = CoordAction.none := by
  constructor <;> simp [coordOnResult, handleUserSpeech]

/-- Claim C2: an engine `ended` event schedules a restart timer with the
fixed delay exactly when `autoRestart = true` and `isPaused = false`
(and under no other flag combination), and when that timer fires with
the flags unchanged and the handle still present it issues exactly one
engine start request. -/
theorem ended_restart_policy (s : RecState) :
    ((WebSpeechRecognizer.handleEnded s).2 = some restartDelayMs ↔
      s.autoRestart = true ∧ s.isPaused = false) ∧
    (¬(s.autoRestart = true ∧ s.isPaused = false) →
      (WebSpeechRecognizer.handleEnded s).2 = none) ∧
    (s.autoRestart = true → s.isPaused = false → s.recognition = true →
      WebSpeechRecognizer.restartTimerFire (WebSpeechRecognizer.handleEnded s).1 =
        ((WebSpeechRecognizer.handleEnded s).1, [EngineCall.start])) := by
  revert s
  decide

/-- Witness for C2 at a live listening session: the ended event schedules
the timer and the timer issues one start request. -/
theorem ended_restart_policy_witness :
    (WebSpeechRecognizer.handleEnded ⟨true, true, false, true, true⟩).2 =
      some restartDelayMs ∧
    WebSpeechRecognizer.restartTimerFire
        (WebSpeechRecognizer.handleEnded ⟨true, true, false, true, true⟩).1 =
      ((WebSpeechRecognizer.handleEnded ⟨true, true, false, true, true⟩).1,
        [EngineCall.start]) :=
  ⟨(ended_restart_policy ⟨true, true, false, true, true⟩).1.mpr ⟨rfl, rfl⟩,
   (ended_restart_policy ⟨true, true, false, true, true⟩).2.2 rfl rfl rfl⟩

/-- While the session is paused, any run of engine-side events keeps it
paused and issues no engine start request. -/
theorem runEvents_paused_inv (evs : List REvent) (s : RecState)
    (h : s.isPaused = true) :
    (runEvents s evs).1.isPaused = true ∧
    EngineCall.start ∉ (runEvents s evs).2 := by
  induction evs generalizing s with
  | nil => simp [runEvents, h]
  | cons e es ih =>
    cases e with
    | ended =>
      have hr := ih { s with isListening := false } (by simpa using h)
      simpa [runEvents, stepEvent, WebSpeechRecognizer.handleEnded] using hr
    | timerFire =>
      have hr := ih s h
      simpa [runEvents, stepEvent, WebSpeechRecognizer.restartTimerFire, h]
        using hr

/-- Claim C3: after `pause()` on a live session the paused flag is set,
and any number of subsequent `ended` events and restart-timer firings
never issue an engine start and leave the session paused, until a
`resume()` clears the flag. -/
theorem pause_blocks_restart_until_resume (s : RecState)
    (evs : List REvent) (h : s.recognition = true) :
    (WebSpeechRecognizer.pause s).1.isPaused = true ∧
    EngineCall.start ∉ (runEvents (WebSpeechRecognizer.pause s).1 evs).2 ∧
    (runEvents (WebSpeechRecognizer.pause s).1 evs).1.isPaused = true := by
  have hp : (WebSpeechRecognizer.pause s).1.isPaused = true := by
    simp [WebSpeechRecognizer.pause, h]
  have hr := runEvents_paused_inv evs _ hp
  exact ⟨hp, hr.2, hr.1⟩

/-- Witness for C3: pausing a live listening session, then two ended
events each followed by a timer firing, never starts the engine. -/
theorem pause_blocks_restart_witness :
    EngineCall.start ∉
      (runEvents (WebSpeechRecognizer.pause ⟨true, true, false, true, true⟩).1
        [REvent.ended, REvent.timerFire, REvent.ended, REvent.timerFire]).2 :=
  (pause_blocks_restart_until_resume ⟨true, true, false, true, true⟩
    [REvent.ended, REvent.timerFire, REvent.ended, REvent.timerFire] rfl).2.1

/-- Claim C4: the engine error codes "no-speech" and "aborted" are never
forwarded to the caller's `onError` callback, and every other error code
is forwarded exactly once, unchanged. -/
theorem error_codes_filtered :
    WebSpeechRecognizer.handleErrorEvent "no-speech" = none ∧
    WebSpeechRecognizer.handleErrorEvent "aborted" = none ∧
    ∀ e : String, e ≠ "no-speech" → e ≠ "aborted" →
      WebSpeechRecognizer.handleErrorEvent e = some e := by
  refine ⟨rfl, rfl, ?_⟩
  intro e h1 h2
  simp [WebSpeechRecognizer.handleErrorEvent, h1, h2]

/-- Witness for C4: the unexpected code "not-allowed" is forwarded. -/
theorem error_codes_filtered_witness :
    WebSpeechRecognizer.handleErrorEvent "not-allowed" = some "not-allowed" :=
  error_codes_filtered.2.2 "not-allowed" (by decide) (by decide)

/-- Counterexample to C5: created with no `window` object, `init`
leaves the handle null but produces no error notification at all (the
code only logs a console warning on that branch), contradicting the
claim that this case reports via the error callback. -/
theorem init_no_window_counterexample :
    (WebSpeechRecognizer.init ⟨false, false⟩).errorNotified = none ∧
    (WebSpeechRecognizer.init ⟨false, false⟩).recognition = false :=
  ⟨rfl, rfl⟩

/-- Claim C5 (amended): session creation never throws — with a window
but no compatible engine, `init` is a no-op that reports via the error
callback; with no window object it is a silent no-op that leaves the
handle null without invoking the error callback. -/
theorem init_environment_behavior (env : WebSpeechRecognizer.InitEnv) :
    (env.hasWindow = false →
      WebSpeechRecognizer.init env = ⟨false, none⟩) ∧
    (env.hasWindow = true → env.hasEngine = false →
      WebSpeechRecognizer.init env =
        ⟨false, some "Web Speech API not supported"⟩) ∧
    (env.hasWindow = true → env.hasEngine = true →
      WebSpeechRecognizer.init env = ⟨true, none⟩) := by
  revert env
  decide

/-- Witness for amended C5: a window without a compatible engine yields
no handle and one error notification. -/
theorem init_environment_behavior_witness :
    WebSpeechRecognizer.init ⟨true, false⟩ =
      ⟨false, some "Web Speech API not supported"⟩ :=
  (init_environment_behavior ⟨true, false⟩).2.1 rfl rfl

/-- Counterexample to C6: from a fresh live session, the original
`start()` followed by a redundant `resume()` (while not paused) issues
two engine start requests, not at most one. -/
theorem resume_duplicate_start_counterexample :
    ((WebSpeechRecognizer.start ⟨true, false, false, true, true⟩).2 ++
        (WebSpeechRecognizer.resume
          (WebSpeechRecognizer.start ⟨true, false, false, true, true⟩).1).2).count
      EngineCall.start = 2 ∧
    (WebSpeechRecognizer.start
      ⟨true, false, false, true, true⟩).1.isPaused = false := by
  decide

/-- Claim C6 (amended): `resume()` while not paused leaves the paused
flag false and resets `autoRestart` to the configured default, but it
issues one engine start request of its own — so across the original
start and the redundant resume the engine start is requested twice, the
duplicate request failing inside the engine and being swallowed. -/
theorem resume_not_paused_behavior (s : RecState) (h1 : s.recognition = true)
    (h2 : s.isPaused = false) :
    WebSpeechRecognizer.resume s =
      ({ s with autoRestart := s.configAutoRestart }, [EngineCall.start]) ∧
    (WebSpeechRecognizer.resume s).1.isPaused = false := by
  revert s
  decide

/-- Witness for amended C6 at a live not-paused session. -/
theorem resume_not_paused_behavior_witness :
    WebSpeechRecognizer.resume ⟨true, false, false, true, true⟩ =
      (⟨true, false, false, true, true⟩, [EngineCall.start]) :=
  (resume_not_paused_behavior ⟨true, false, false, true, true⟩ rfl rfl).1

/-- Counterexample to C7: the handle is still non-null after a first
`stop()`, so a second `stop()` issues an additional engine stop call
rather than no engine call. -/
theorem stop_second_call_counterexample :
    (WebSpeechRecognizer.stop
        (WebSpeechRecognizer.stop ⟨true, false, false, true, true⟩).1).2 =
      [EngineCall.stop] ∧
    (WebSpeechRecognizer.stop
        (WebSpeechRecognizer.stop ⟨true, false, false, true, true⟩).1).2 ≠
      ([] : List EngineCall) := by
  decide

/-- Claim C7 (amended): `stop()` is idempotent on the session state —
the second call leaves the state (isPaused = true, autoRestart = false)
unchanged — but each call issues its own engine stop request. -/
theorem stop_state_idempotent (s : RecState) (h : s.recognition = true) :
    (WebSpeechRecognizer.stop (WebSpeechRecognizer.stop s).1).1 =
      (WebSpeechRecognizer.stop s).1 ∧
    (WebSpeechRecognizer.stop s).1.isPaused = true ∧
    (WebSpeechRecognizer.stop s).1.autoRestart = false ∧
    (WebSpeechRecognizer.stop (WebSpeechRecognizer.stop s).1).2 =
      [EngineCall.stop] := by
  revert s
  decide

/-- Witness for amended C7 at a live session. -/
theorem stop_state_idempotent_witness :
    (WebSpeechRecognizer.stop
        (WebSpeechRecognizer.stop ⟨true, false, false, true, true⟩).1).1 =
      (WebSpeechRecognizer.stop ⟨true, false, false, true, true⟩).1 :=
  (stop_state_idempotent ⟨true, false, false, true, true⟩ rfl).1

/-- Claim C8 (code bug): on the tab-change path the coordinator pauses
recognition and requests synthesis, but when synthesis fails `resume()`
is never called and the avatar-speaking flag stays set, leaving
recognition paused; the direct speak path, by contrast, does resume on
synthesis failure. -/
theorem tab_change_speak_failure_never_resumes :
    handleTabChange false false true true true =
      ⟨true, true, false, true, false⟩ ∧
    (speakWithAvatar false true "script" true).resumeCalled = true := by
  constructor
  · rfl
  · rfl

set_option maxRecDepth 20000 in
/-- Counterexample to C9: an origin that merely extends a trusted origin
string passes the `startsWith` check and its tab-change signal is
honored, although the origin is not a member of the fixed trusted set. -/
theorem origin_allowlist_counterexample :
    handleMessage "https://sdkparkforbi.github.io.attacker.example"
        "TAB_CHANGED" (some "management") =
      MsgAction.tabChange "management" ∧
    "https://sdkparkforbi.github.io.attacker.example" ∉ allowedOrigins := by
  constructor
  · decide
  · decide

/-- Claim C9 (amended): a tab-change signal is honored only if the
message origin starts with one of the three fixed trusted origin
strings; a message whose origin matches no such prefix is ignored and
triggers no action. -/
theorem message_requires_allowlisted_origin (origin msgType : String)
    (tabId : Option String)
    (h : (allowedOrigins.any fun o => strStartsWith origin o) = false) :
    handleMessage origin msgType tabId = MsgAction.none := by
  simp [handleMessage, h]

set_option maxRecDepth 20000 in
/-- Witness for amended C9: an untrusted origin is ignored. -/
theorem message_requires_allowlisted_origin_witness :
    handleMessage "https://evil.example" "TAB_CHANGED" (some "management") =
      MsgAction.none :=
  message_requires_allowlisted_origin "https://evil.example" "TAB_CHANGED"
    (some "management") (by decide)

/-- One step from a destroyed state (null handle, paused, no
auto-restart) issues no engine call and preserves the destroyed state. -/
theorem stepItem_destroyed {s : RecState} (i : SessItem)
    (h1 : s.recognition = false) (h2 : s.isPaused = true)
    (h3 : s.autoRestart = false) :
    (stepItem s i).2 = [] ∧ (stepItem s i).1.recognition = false ∧
    (stepItem s i).1.isPaused = true ∧
    (stepItem s i).1.autoRestart = false := by
  cases i with
  | op o =>
    cases o with
    | start => simp [stepItem, applyOp, WebSpeechRecognizer.start, h1, h2, h3]
    | stop => simp [stepItem, applyOp, WebSpeechRecognizer.stop, h1, h2, h3]
    | pause => simp [stepItem, applyOp, WebSpeechRecognizer.pause, h1, h2, h3]
    | resume =>
      simp [stepItem, applyOp, WebSpeechRecognizer.resume, h1, h2, h3]
    | destroy =>
      simp [stepItem, applyOp, WebSpeechRecognizer.destroy, h1, h2, h3]
    | setLanguage l =>
      simp [stepItem, applyOp, WebSpeechRecognizer.setLanguage, h1, h2, h3]
  | ev e =>
    cases e with
    | ended =>
      simp [stepItem, stepEvent, WebSpeechRecognizer.handleEnded, h1, h2, h3]
    | timerFire =>
      simp [stepItem, stepEvent, WebSpeechRecognizer.restartTimerFire,
        h1, h2, h3]

/-- Any history run from a destroyed state issues no engine call and
preserves the destroyed state. -/
theorem runItems_destroyed_inv (items : List SessItem) (s : RecState)
    (h1 : s.recognition = false) (h2 : s.isPaused = true)
    (h3 : s.autoRestart = false) :
    (runItems s items).2 = [] ∧
    (runItems s items).1.recognition = false ∧
    (runItems s items).1.isPaused = true ∧
    (runItems s items).1.autoRestart = false := by
  induction items generalizing s with
  | nil => simp [runItems, h1, h2, h3]
  | cons i is ih =>
    have hs := stepItem_destroyed i h1 h2 h3
    have hr := ih (stepItem s i).1 hs.2.1 hs.2.2.1 hs.2.2.2
    simp [runItems, hs.1, hr.1, hr.2.1, hr.2.2.1, hr.2.2.2]

/-- Claim C10: after `destroy()` the handle is null and the session is
paused, and every subsequent history of public operations and engine
events — including a restart timer scheduled before the destroy that
fires afterwards — issues no engine call at all and keeps the handle
null and the session paused. -/
theorem destroy_quiesces_engine (s : RecState) (items : List SessItem) :
    (WebSpeechRecognizer.destroy s).1.recognition = false ∧
    (WebSpeechRecognizer.destroy s).1.isPaused = true ∧
    (runItems (WebSpeechRecognizer.destroy s).1 items).2 = [] ∧
    (runItems (WebSpeechRecognizer.destroy s).1 items).1.recognition = false ∧
    (runItems (WebSpeechRecognizer.destroy s).1 items).1.isPaused = true := by
  have h1 : (WebSpeechRecognizer.destroy s).1.recognition = false := rfl
  have h2 : (WebSpeechRecognizer.destroy s).1.isPaused = true := rfl
  have h3 : (WebSpeechRecognizer.destroy s).1.autoRestart = false := rfl
  have hr := runItems_destroyed_inv items _ h1 h2 h3
  exact ⟨h1, h2, hr.1, hr.2.1, hr.2.2.1⟩

end MediaComAvatar
